import Mathlib

/-!
Verification development for the `argyll` Python SDK
(`sdks/python/src/argyll/`): step model, wire-form serialization,
validation, immutable builders, registration retry protocol, step
server request handling, and the async webhook completion contract.

Python values that flow through JSON are modelled by `JValue`.
Python `dict`s are modelled as insertion-ordered association lists,
which matches Python 3.7+ dict semantics (insertion order preserved,
updating an existing key keeps its position).
-/

namespace Argyll

/-- Model of a decoded JSON value (the result of `json.loads`, and the
payloads built by the `to_dict` serializers).  JSON numbers are split
into `int` and `float` exactly as Python's `json` module does; the
`float` payload is the exact decimal `(mantissa, exp10)` so that
distinct literals stay distinguishable (its numeric value is never
consulted by the code under verification). -/
inductive JValue where
  | null : JValue
  | bool (b : Bool) : JValue
  | int (n : Int) : JValue
  | float (mantissa : Int) (exp10 : Int) : JValue
  | str (s : String) : JValue
  | arr (elems : List JValue) : JValue
  | obj (fields : List (String × JValue)) : JValue

/-- Python truthiness (`bool(x)`) of a decoded JSON value: `None`,
`False`, numeric zero, and empty containers/strings are falsy. -/
def pyTruthy : JValue → Bool
  | .null => false
  | .bool b => b
  | .int n => n != 0
  | .float m _ => m != 0
  | .str s => s ≠ ""
  | .arr es => !es.isEmpty
  | .obj fs => !fs.isEmpty

/-- First-match lookup in an association list (Python `dict.__getitem__`
on our ordered-association-list model; keys are unique by construction
since inserts collapse duplicates). -/
def alistLookup (fields : List (String × JValue)) (key : String) :
    Option JValue :=
  match fields with
  | [] => none
  | (k, v) :: rest => if k = key then some v else alistLookup rest key

/-- Python `dict.get(key, default)`. -/
def dictGetD (fields : List (String × JValue)) (key : String)
    (dflt : JValue) : JValue :=
  match alistLookup fields key with
  | some v => v
  | none => dflt

/-- Python `dict.__setitem__`: replace the value in place if the key
exists (keeping its position), otherwise append. -/
def dictInsert {α : Type} (fields : List (String × α)) (key : String)
    (val : α) : List (String × α) :=
  match fields with
  | [] => [(key, val)]
  | (k, v) :: rest =>
      if k = key then (k, val) :: rest
      else (k, v) :: dictInsert rest key val

/-- Name of the Python runtime type of a decoded JSON value, as it
appears in `AttributeError` messages. -/
def pyTypeName : JValue → String
  | .null => "NoneType"
  | .bool _ => "bool"
  | .int _ => "int"
  | .float _ _ => "float"
  | .str _ => "str"
  | .arr _ => "list"
  | .obj _ => "dict"

/-! ## Enumerations (`types.py`) -/

/-- `StepType` from `types.py`. -/
inductive StepType where
  | sync | async | script | flow
  deriving DecidableEq, Repr

/-- The `.value` string of a `StepType` member. -/
def StepType.value : StepType → String
  | .sync => "sync"
  | .async => "async"
  | .script => "script"
  | .flow => "flow"

/-- `AttributeRole` from `types.py`. -/
inductive AttributeRole where
  | required | optional | const | output
  deriving DecidableEq, Repr

/-- The `.value` string of an `AttributeRole` member. -/
def AttributeRole.value : AttributeRole → String
  | .required => "required"
  | .optional => "optional"
  | .const => "const"
  | .output => "output"

/-- `AttributeType` from `types.py`. -/
inductive AttributeType where
  | string | number | boolean | object | array | null | any
  deriving DecidableEq, Repr

/-- The `.value` string of an `AttributeType` member. -/
def AttributeType.value : AttributeType → String
  | .string => "string"
  | .number => "number"
  | .boolean => "boolean"
  | .object => "object"
  | .array => "array"
  | .null => "null"
  | .any => "any"

/-- `ScriptLanguage` from `types.py`. -/
inductive ScriptLanguage where
  | ale | lua
  deriving DecidableEq, Repr

/-- The `.value` string of a `ScriptLanguage` member. -/
def ScriptLanguage.value : ScriptLanguage → String
  | .ale => "ale"
  | .lua => "lua"

/-- `BackoffType` from `types.py`. -/
inductive BackoffType where
  | fixed | linear | exponential
  deriving DecidableEq, Repr

/-- The `.value` string of a `BackoffType` member. -/
def BackoffType.value : BackoffType → String
  | .fixed => "fixed"
  | .linear => "linear"
  | .exponential => "exponential"

/-! ## Data records and wire forms (`types.py`) -/

/-- `AttributeSpec` from `types.py`. -/
structure AttributeSpec where
  role : AttributeRole
  type : AttributeType
  default : String := ""
  for_each : Bool := false
  deriving DecidableEq, Repr

/-- `AttributeSpec.to_dict`. -/
def AttributeSpec.to_dict (a : AttributeSpec) : JValue :=
  .obj ([("role", .str a.role.value), ("type", .str a.type.value)] ++
    (if a.default ≠ "" then [("default", .str a.default)] else []) ++
    (if a.for_each then [("for_each", .bool true)] else []))

/-- `HTTPConfig` from `types.py`. -/
structure HTTPConfig where
  endpoint : String
  health_check : String := ""
  timeout : Int := 0
  deriving DecidableEq, Repr

/-- `HTTPConfig.to_dict`. -/
def HTTPConfig.to_dict (h : HTTPConfig) : JValue :=
  .obj ([("endpoint", .str h.endpoint)] ++
    (if h.health_check ≠ "" then [("health_check", .str h.health_check)]
      else []) ++
    (if h.timeout > 0 then [("timeout", .int h.timeout)] else []))

/-- `ScriptConfig` from `types.py`. -/
structure ScriptConfig where
  language : ScriptLanguage
  script : String
  deriving DecidableEq, Repr

/-- `ScriptConfig.to_dict`. -/
def ScriptConfig.to_dict (s : ScriptConfig) : JValue :=
  .obj [("language", .str s.language.value), ("script", .str s.script)]

/-- `PredicateConfig` from `types.py`. -/
structure PredicateConfig where
  language : ScriptLanguage
  script : String
  deriving DecidableEq, Repr

/-- `PredicateConfig.to_dict`. -/
def PredicateConfig.to_dict (p : PredicateConfig) : JValue :=
  .obj [("language", .str p.language.value), ("script", .str p.script)]

/-- `WorkConfig` from `types.py`. -/
structure WorkConfig where
  max_retries : Int := 0
  backoff_type : BackoffType := .fixed
  backoff : Int := 0
  max_backoff : Int := 0
  parallelism : Int := 0
  deriving DecidableEq, Repr

/-- Field list of `WorkConfig.to_dict`.  The guard on `backoff_type` in
the source is `if self.backoff_type:`; `BackoffType` subclasses `str`,
so that truthiness test is the non-emptiness of the member's string
value (and every member's value is non-empty). -/
def WorkConfig.to_dict_fields (w : WorkConfig) : List (String × JValue) :=
  (if w.max_retries > 0 then [("max_retries", .int w.max_retries)]
    else []) ++
  (if w.backoff_type.value ≠ "" then
    [("backoff_type", .str w.backoff_type.value)] else []) ++
  (if w.backoff > 0 then [("backoff", .int w.backoff)] else []) ++
  (if w.max_backoff > 0 then [("max_backoff", .int w.max_backoff)]
    else []) ++
  (if w.parallelism > 0 then [("parallelism", .int w.parallelism)]
    else [])

/-- `WorkConfig.to_dict`. -/
def WorkConfig.to_dict (w : WorkConfig) : JValue :=
  .obj w.to_dict_fields

/-- `FlowConfig` from `types.py`. -/
structure FlowConfig where
  goals : List String
  input_map : List (String × String) := []
  output_map : List (String × String) := []
  deriving DecidableEq, Repr

/-- Serialize a string-to-string mapping. -/
def strMapToJ (m : List (String × String)) : JValue :=
  .obj (m.map fun kv => (kv.1, .str kv.2))

/-- `FlowConfig.to_dict`. -/
def FlowConfig.to_dict (f : FlowConfig) : JValue :=
  .obj ([("goals", .arr (f.goals.map JValue.str))] ++
    (if f.input_map ≠ [] then [("input_map", strMapToJ f.input_map)]
      else []) ++
    (if f.output_map ≠ [] then [("output_map", strMapToJ f.output_map)]
      else []))

/-- `Step` from `types.py`. -/
structure Step where
  id : String
  name : String
  type : StepType
  attributes : List (String × AttributeSpec) := []
  labels : List (String × String) := []
  http : Option HTTPConfig := none
  script : Option ScriptConfig := none
  predicate : Option PredicateConfig := none
  work_config : Option WorkConfig := none
  flow : Option FlowConfig := none
  memoizable : Bool := false
  deriving DecidableEq, Repr

/-- `Step.to_dict`. -/
def Step.to_dict (s : Step) : JValue :=
  .obj ([("id", .str s.id), ("name", .str s.name),
      ("type", .str s.type.value)] ++
    (if s.attributes ≠ [] then
      [("attributes",
        .obj (s.attributes.map fun kv => (kv.1, kv.2.to_dict)))]
      else []) ++
    (if s.labels ≠ [] then [("labels", strMapToJ s.labels)] else []) ++
    (match s.http with
      | some h => [("http", h.to_dict)]
      | none => []) ++
    (match s.script with
      | some sc => [("script", sc.to_dict)]
      | none => []) ++
    (match s.predicate with
      | some p => [("predicate", p.to_dict)]
      | none => []) ++
    (match s.work_config with
      | some w => [("work_config", w.to_dict)]
      | none => []) ++
    (match s.flow with
      | some f => [("flow", f.to_dict)]
      | none => []) ++
    (if s.memoizable then [("memoizable", .bool true)] else []))

/-- `StepResult` from `types.py`.  `outputs` is a JSON-object payload. -/
structure StepResult where
  success : Bool
  outputs : List (String × JValue) := []
  error : String := ""

/-- `StepResult.to_dict`. -/
def StepResult.to_dict (r : StepResult) : JValue :=
  .obj ([("success", .bool r.success)] ++
    (if r.outputs.isEmpty then [] else [("outputs", .obj r.outputs)]) ++
    (if r.error ≠ "" then [("error", .str r.error)] else []))

/-! ## Kebab-case transform (`builder.py`, `_to_kebab_case`) -/

/-- ASCII `[a-z0-9]` (the first group of the camel-split regex). -/
def isLowerOrDigit (c : Char) : Bool :=
  ('a' ≤ c && c ≤ 'z') || ('0' ≤ c && c ≤ '9')

/-- ASCII `[A-Z]` (the second group of the camel-split regex). -/
def isUpperAscii (c : Char) : Bool :=
  'A' ≤ c && c ≤ 'Z'

/-- Characters matched by the regex class `[\s_]`: Python `\s`
whitespace (restricted here to its ASCII members, the only ones the
code base ever feeds it) or an underscore. -/
def isWsOrUnderscore (c : Char) : Bool :=
  c = ' ' || c = '\t' || c = '\n' || c = '\r' ||
  c = Char.ofNat 11 || c = Char.ofNat 12 || c = '_'

/-- First pass of `_to_kebab_case`:
`re.sub(r"([a-z0-9])([A-Z])", r"\1-\2", s)`.  `re.sub` resumes after
each non-overlapping match, so both matched characters are consumed;
the second (an uppercase letter) can never begin a new match. -/
def camelSplit : List Char → List Char
  | [] => []
  | [c] => [c]
  | c₁ :: c₂ :: rest =>
      if isLowerOrDigit c₁ && isUpperAscii c₂ then
        c₁ :: '-' :: c₂ :: camelSplit rest
      else
        c₁ :: camelSplit (c₂ :: rest)

/-! Second pass of `_to_kebab_case`: `re.sub(r"[\s_]+", "-", s)`,
replacing each maximal run of whitespace/underscores by one dash
(`afterSeparator` consumes the rest of a run). -/
mutual

/-- Collapse separator runs to a single dash. -/
def collapseSeparators : List Char → List Char
  | [] => []
  | c :: rest =>
      if isWsOrUnderscore c then '-' :: afterSeparator rest
      else c :: collapseSeparators rest

/-- Consume the remainder of a separator run. -/
def afterSeparator : List Char → List Char
  | [] => []
  | c :: rest =>
      if isWsOrUnderscore c then afterSeparator rest
      else c :: collapseSeparators rest

end

/-- ASCII `str.lower()` on a character. -/
def toLowerAscii (c : Char) : Char :=
  if 'A' ≤ c && c ≤ 'Z' then Char.ofNat (c.toNat + 32) else c

/-- `_to_kebab_case` from `builder.py`. -/
def _to_kebab_case (s : String) : String :=
  ⟨(collapseSeparators (camelSplit s.data)).map toLowerAscii⟩

/-! ## Builder objects (`builder.py`)

A Python `StepBuilder` instance is a mutable object; `_copy` performs
`copy.copy` (shallow copy, allocating a fresh object) followed by
`setattr` on the copy only.  To make the frame property meaningful we
model the object heap explicitly: a store is the list of all builder
objects allocated so far, an object reference is an index into it, and
`_copy` appends the updated copy at a fresh index.  The `client` field
is identical for every builder made from one `Client` and carries no
builder state, so it is omitted from the record. -/

/-- The fields of a `StepBuilder` object. -/
structure StepBuilderObj where
  _id : String
  _name : String
  _type : StepType
  _attributes : List (String × AttributeSpec)
  _labels : List (String × String)
  _http : Option HTTPConfig
  _script : Option ScriptConfig
  _predicate : Option PredicateConfig
  _flow : Option FlowConfig
  _memoizable : Bool
  _dirty : Bool
  deriving DecidableEq, Repr

/-- A default builder object (used only as the out-of-range default of
list indexing, never reachable under the in-range hypotheses). -/
def defaultSB : StepBuilderObj :=
  ⟨"", "", .sync, [], [], none, none, none, none, false, false⟩

/-- `StepBuilder.__init__`: `step_id or _to_kebab_case(name)` falls
back to the kebab transform when `step_id` is `None` or empty. -/
def stepBuilderNew (name : String) (step_id : Option String) :
    StepBuilderObj :=
  { _id := match step_id with
      | some i => if i = "" then _to_kebab_case name else i
      | none => _to_kebab_case name
    _name := name
    _type := .sync
    _attributes := []
    _labels := []
    _http := none
    _script := none
    _predicate := none
    _flow := none
    _memoizable := false
    _dirty := false }

/-- Heap of allocated `StepBuilder` objects; addresses are indices. -/
def SBStore := List StepBuilderObj

/-- `StepBuilder._copy`: shallow-copy the receiver at address `a`,
apply the keyword updates to the copy, and return the fresh address. -/
def sbCopy (st : SBStore) (a : Nat) (upd : StepBuilderObj → StepBuilderObj) :
    SBStore × Nat :=
  (List.append st [upd (st.getD a defaultSB)], st.length)

/-! Field updates applied by each mutator (the `kwargs` of `_copy`),
expressed at the object level, then the store-level mutators. -/

/-- Object-level update of `with_id`. -/
def sbWithIdObj (i : String) (o : StepBuilderObj) : StepBuilderObj :=
  { o with _id := i }

/-- Object-level update of `required`. -/
def sbRequiredObj (nm : String) (t : AttributeType) (o : StepBuilderObj) :
    StepBuilderObj :=
  { o with _attributes :=
      dictInsert o._attributes nm ⟨.required, t, "", false⟩ }

/-- Object-level update of `optional`. -/
def sbOptionalObj (nm : String) (t : AttributeType) (d : String)
    (o : StepBuilderObj) : StepBuilderObj :=
  { o with _attributes :=
      dictInsert o._attributes nm ⟨.optional, t, d, false⟩ }

/-- Object-level update of `const`. -/
def sbConstObj (nm : String) (t : AttributeType) (v : String)
    (o : StepBuilderObj) : StepBuilderObj :=
  { o with _attributes :=
      dictInsert o._attributes nm ⟨.const, t, v, false⟩ }

/-- Object-level update of `output`. -/
def sbOutputObj (nm : String) (t : AttributeType) (o : StepBuilderObj) :
    StepBuilderObj :=
  { o with _attributes :=
      dictInsert o._attributes nm ⟨.output, t, "", false⟩ }

/-- Object-level update of `with_for_each` once the attribute has been
found. -/
def sbForEachObj (nm : String) (existing : AttributeSpec)
    (o : StepBuilderObj) : StepBuilderObj :=
  { o with _attributes :=
      (dictInsert o._attributes nm
        ⟨existing.role, existing.type, existing.default, true⟩) }

/-- Object-level update of `with_label`. -/
def sbWithLabelObj (k v : String) (o : StepBuilderObj) : StepBuilderObj :=
  { o with _labels := dictInsert o._labels k v }

/-- Python `dict.update`: insert each entry of `new` in order. -/
def dictUpdate {α : Type} (base new : List (String × α)) :
    List (String × α) :=
  new.foldl (fun acc kv => dictInsert acc kv.1 kv.2) base

/-- Object-level update of `with_labels`. -/
def sbWithLabelsObj (ls : List (String × String)) (o : StepBuilderObj) :
    StepBuilderObj :=
  { o with _labels := dictUpdate o._labels ls }

/-- Object-level update of `with_endpoint`. -/
def sbWithEndpointObj (url : String) (o : StepBuilderObj) :
    StepBuilderObj :=
  { o with _http :=
      (some { endpoint := url
              health_check := match o._http with
                | some h => h.health_check
                | none => ""
              timeout := match o._http with
                | some h => h.timeout
                | none => 0 }) }

/-- Object-level update of `with_health_check`. -/
def sbWithHealthCheckObj (url : String) (o : StepBuilderObj) :
    StepBuilderObj :=
  { o with _http :=
      (some { endpoint := match o._http with
                | some h => h.endpoint
                | none => ""
              health_check := url
              timeout := match o._http with
                | some h => h.timeout
                | none => 0 }) }

/-- Object-level update of `with_timeout`. -/
def sbWithTimeoutObj (ms : Int) (o : StepBuilderObj) : StepBuilderObj :=
  { o with _http :=
      (some { endpoint := match o._http with
                | some h => h.endpoint
                | none => ""
              health_check := match o._http with
                | some h => h.health_check
                | none => ""
              timeout := ms }) }

/-- Object-level update of `with_script_language` (also sets the step
type to `script`). -/
def sbWithScriptLanguageObj (lang : ScriptLanguage) (s : String)
    (o : StepBuilderObj) : StepBuilderObj :=
  { o with _script := some ⟨lang, s⟩, _type := .script }

/-- Object-level update of `with_script` (delegates to
`with_script_language` with `ScriptLanguage.ALE`). -/
def sbWithScriptObj (s : String) (o : StepBuilderObj) : StepBuilderObj :=
  sbWithScriptLanguageObj .ale s o

/-- Object-level update of `with_predicate`. -/
def sbWithPredicateObj (lang : ScriptLanguage) (s : String)
    (o : StepBuilderObj) : StepBuilderObj :=
  { o with _predicate := some ⟨lang, s⟩ }

/-- Object-level update of `with_flow_goals` (also sets the step type
to `flow`). -/
def sbWithFlowGoalsObj (goal_ids : List String) (o : StepBuilderObj) :
    StepBuilderObj :=
  { o with
    _flow :=
      (some { goals := goal_ids
              input_map := match o._flow with
                | some f => f.input_map
                | none => []
              output_map := match o._flow with
                | some f => f.output_map
                | none => [] })
    _type := .flow }

/-- Object-level update of `with_flow_input_map` (also sets the step
type to `flow`). -/
def sbWithFlowInputMapObj (mapping : List (String × String))
    (o : StepBuilderObj) : StepBuilderObj :=
  { o with
    _flow :=
      (some { goals := match o._flow with
                | some f => f.goals
                | none => []
              input_map := mapping
              output_map := match o._flow with
                | some f => f.output_map
                | none => [] })
    _type := .flow }

/-- Object-level update of `with_flow_output_map` (also sets the step
type to `flow`). -/
def sbWithFlowOutputMapObj (mapping : List (String × String))
    (o : StepBuilderObj) : StepBuilderObj :=
  { o with
    _flow :=
      (some { goals := match o._flow with
                | some f => f.goals
                | none => []
              input_map := match o._flow with
                | some f => f.input_map
                | none => []
              output_map := mapping })
    _type := .flow }

/-- Object-level update of `with_async_execution`. -/
def sbWithAsyncExecutionObj (o : StepBuilderObj) : StepBuilderObj :=
  { o with _type := .async }

/-- Object-level update of `with_sync_execution`. -/
def sbWithSyncExecutionObj (o : StepBuilderObj) : StepBuilderObj :=
  { o with _type := .sync }

/-- Object-level update of `with_memoizable`. -/
def sbWithMemoizableObj (o : StepBuilderObj) : StepBuilderObj :=
  { o with _memoizable := true }

/-- Object-level update of `update` (mark for update). -/
def sbUpdateObj (o : StepBuilderObj) : StepBuilderObj :=
  { o with _dirty := true }

/-! Store-level mutators (each is `_copy` with the kwargs above). -/

/-- `StepBuilder.with_id`. -/
def sb_with_id (st : SBStore) (a : Nat) (i : String) : SBStore × Nat :=
  sbCopy st a (sbWithIdObj i)

/-- `StepBuilder.required`. -/
def sb_required (st : SBStore) (a : Nat) (nm : String)
    (t : AttributeType) : SBStore × Nat :=
  sbCopy st a (sbRequiredObj nm t)

/-- `StepBuilder.optional`. -/
def sb_optional (st : SBStore) (a : Nat) (nm : String)
    (t : AttributeType) (d : String) : SBStore × Nat :=
  sbCopy st a (sbOptionalObj nm t d)

/-- `StepBuilder.const`. -/
def sb_const (st : SBStore) (a : Nat) (nm : String) (t : AttributeType)
    (v : String) : SBStore × Nat :=
  sbCopy st a (sbConstObj nm t v)

/-- `StepBuilder.output`. -/
def sb_output (st : SBStore) (a : Nat) (nm : String)
    (t : AttributeType) : SBStore × Nat :=
  sbCopy st a (sbOutputObj nm t)

/-- Association-list lookup for attribute specs (the membership test
`name in self._attributes` combined with the indexing that follows). -/
def lookupAttrSpec : List (String × AttributeSpec) → String →
    Option AttributeSpec
  | [], _ => none
  | (k, v) :: rest, key =>
      if k = key then some v else lookupAttrSpec rest key

/-- `StepBuilder.with_for_each`: raises `StepValidationError` (`none`)
when the attribute is not yet declared. -/
def sb_with_for_each (st : SBStore) (a : Nat) (nm : String) :
    Option (SBStore × Nat) :=
  match lookupAttrSpec ((st.getD a defaultSB)._attributes) nm with
  | none => none
  | some existing => some (sbCopy st a (sbForEachObj nm existing))

/-- `StepBuilder.with_label`. -/
def sb_with_label (st : SBStore) (a : Nat) (k v : String) :
    SBStore × Nat :=
  sbCopy st a (sbWithLabelObj k v)

/-- `StepBuilder.with_labels`. -/
def sb_with_labels (st : SBStore) (a : Nat)
    (ls : List (String × String)) : SBStore × Nat :=
  sbCopy st a (sbWithLabelsObj ls)

/-- `StepBuilder.with_endpoint`. -/
def sb_with_endpoint (st : SBStore) (a : Nat) (url : String) :
    SBStore × Nat :=
  sbCopy st a (sbWithEndpointObj url)

/-- `StepBuilder.with_health_check`. -/
def sb_with_health_check (st : SBStore) (a : Nat) (url : String) :
    SBStore × Nat :=
  sbCopy st a (sbWithHealthCheckObj url)

/-- `StepBuilder.with_timeout`. -/
def sb_with_timeout (st : SBStore) (a : Nat) (ms : Int) :
    SBStore × Nat :=
  sbCopy st a (sbWithTimeoutObj ms)

/-- `StepBuilder.with_script`. -/
def sb_with_script (st : SBStore) (a : Nat) (s : String) :
    SBStore × Nat :=
  sbCopy st a (sbWithScriptObj s)

/-- `StepBuilder.with_script_language`. -/
def sb_with_script_language (st : SBStore) (a : Nat)
    (lang : ScriptLanguage) (s : String) : SBStore × Nat :=
  sbCopy st a (sbWithScriptLanguageObj lang s)

/-- `StepBuilder.with_predicate`. -/
def sb_with_predicate (st : SBStore) (a : Nat) (lang : ScriptLanguage)
    (s : String) : SBStore × Nat :=
  sbCopy st a (sbWithPredicateObj lang s)

/-- `StepBuilder.with_flow_goals`. -/
def sb_with_flow_goals (st : SBStore) (a : Nat)
    (goal_ids : List String) : SBStore × Nat :=
  sbCopy st a (sbWithFlowGoalsObj goal_ids)

/-- `StepBuilder.with_flow_input_map`. -/
def sb_with_flow_input_map (st : SBStore) (a : Nat)
    (mapping : List (String × String)) : SBStore × Nat :=
  sbCopy st a (sbWithFlowInputMapObj mapping)

/-- `StepBuilder.with_flow_output_map`. -/
def sb_with_flow_output_map (st : SBStore) (a : Nat)
    (mapping : List (String × String)) : SBStore × Nat :=
  sbCopy st a (sbWithFlowOutputMapObj mapping)

/-- `StepBuilder.with_async_execution`. -/
def sb_with_async_execution (st : SBStore) (a : Nat) : SBStore × Nat :=
  sbCopy st a sbWithAsyncExecutionObj

/-- `StepBuilder.with_sync_execution`. -/
def sb_with_sync_execution (st : SBStore) (a : Nat) : SBStore × Nat :=
  sbCopy st a sbWithSyncExecutionObj

/-- `StepBuilder.with_memoizable`. -/
def sb_with_memoizable (st : SBStore) (a : Nat) : SBStore × Nat :=
  sbCopy st a sbWithMemoizableObj

/-- `StepBuilder.update`. -/
def sb_update (st : SBStore) (a : Nat) : SBStore × Nat :=
  sbCopy st a sbUpdateObj

/-! ## FlowBuilder objects (`builder.py`) -/

/-- The fields of a `FlowBuilder` object (the `client` field is again
omitted; `_initial_state` holds JSON-able Python values). -/
structure FlowBuilderObj where
  _flow_id : String
  _goals : List String
  _initial_state : List (String × JValue)

/-- Heap of allocated `FlowBuilder` objects. -/
def FBStore := List FlowBuilderObj

/-- A default flow-builder object for out-of-range indexing. -/
def defaultFB : FlowBuilderObj := ⟨"", [], []⟩

/-- `FlowBuilder._copy`. -/
def fbCopy (st : FBStore) (a : Nat)
    (upd : FlowBuilderObj → FlowBuilderObj) : FBStore × Nat :=
  (List.append st [upd (st.getD a defaultFB)], st.length)

/-- Object-level update of `with_goal` (appends one goal). -/
def fbWithGoalObj (sid : String) (o : FlowBuilderObj) : FlowBuilderObj :=
  { o with _goals := o._goals ++ [sid] }

/-- Object-level update of `with_goals` (replaces the goal list). -/
def fbWithGoalsObj (sids : List String) (o : FlowBuilderObj) :
    FlowBuilderObj :=
  { o with _goals := sids }

/-- Object-level update of `with_initial_state`. -/
def fbWithInitialStateObj (args : List (String × JValue))
    (o : FlowBuilderObj) : FlowBuilderObj :=
  { o with _initial_state := args }

/-- `FlowBuilder.with_goal`. -/
def fb_with_goal (st : FBStore) (a : Nat) (sid : String) :
    FBStore × Nat :=
  fbCopy st a (fbWithGoalObj sid)

/-- `FlowBuilder.with_goals`. -/
def fb_with_goals (st : FBStore) (a : Nat) (sids : List String) :
    FBStore × Nat :=
  fbCopy st a (fbWithGoalsObj sids)

/-- `FlowBuilder.with_initial_state`. -/
def fb_with_initial_state (st : FBStore) (a : Nat)
    (args : List (String × JValue)) : FBStore × Nat :=
  fbCopy st a (fbWithInitialStateObj args)

/-! ## Model of `json.loads`

The JSON grammar exactly as accepted by Python's `json.loads` in its
default configuration: strict strings (unescaped control characters
rejected), the number regex `-?(0|[1-9]\d*)(\.\d+)?([eE][+-]?\d+)?`,
the constants `NaN`, `Infinity` and `-Infinity`, no trailing commas,
and no trailing data after the document.  Recursion is fuelled; the
fuel picked by `json_loads` is large enough for any input because
every three nested calls consume at least one character. -/

/-- JSON whitespace skipped by `json.loads` (space, tab, LF, CR). -/
def isJsonWs (c : Char) : Bool :=
  c = ' ' || c = '\t' || c = '\n' || c = '\r'

/-- Drop leading JSON whitespace. -/
def skipJsonWs : List Char → List Char
  | [] => []
  | c :: rest => if isJsonWs c then skipJsonWs rest else c :: rest

/-- Value of a hexadecimal digit (code points 0-9, a-f, A-F). -/
def hexDigitVal (c : Char) : Option Nat :=
  let n := c.toNat
  if 48 ≤ n && n ≤ 57 then some (n - 48)
  else if 97 ≤ n && n ≤ 102 then some (n - 87)
  else if 65 ≤ n && n ≤ 70 then some (n - 55)
  else none

/-- ASCII decimal digit test. -/
def isDigitAscii (c : Char) : Bool := '0' ≤ c && c ≤ '9'

/-- Split off the longest prefix of decimal digits. -/
def takeDigits : List Char → List Char × List Char
  | [] => ([], [])
  | c :: rest =>
      if isDigitAscii c then
        let (ds, r) := takeDigits rest
        (c :: ds, r)
      else ([], c :: rest)

/-- Numeric value of a digit list (most significant first). -/
def digitsToNat (ds : List Char) : Nat :=
  ds.foldl (fun acc c => acc * 10 + (c.toNat - '0'.toNat)) 0

/-- Integer part of a JSON number: `0` or a nonzero digit followed by
digits. -/
def parseJsonIntPart (cs : List Char) :
    Option (List Char × List Char) :=
  match cs with
  | '0' :: rest => some (['0'], rest)
  | c :: rest =>
      if isDigitAscii c then
        let (ds, r) := takeDigits rest
        some (c :: ds, r)
      else none
  | [] => none

/-- Exponent part of a JSON number after `e`/`E`; on failure the
fallback input (`whole`, positioned before the `e`) is restored. -/
def parseJsonExpPart (rest whole : List Char) : Bool × Int × List Char :=
  let (esign, rest₁) :=
    match rest with
    | '+' :: r => ((1 : Int), r)
    | '-' :: r => ((-1 : Int), r)
    | _ => ((1 : Int), rest)
  match takeDigits rest₁ with
  | ([], _) => (false, 0, whole)
  | (ds, r) => (true, esign * digitsToNat ds, r)

/-- Parse a JSON number per the regex used by Python's scanner:
sign, integer part `0|[1-9]\d*`, optional fraction `\.\d+`, optional
exponent `[eE][+-]?\d+`.  A number with fraction or exponent decodes
to a Python `float`, otherwise to an `int`. -/
def parseJsonNumber (cs : List Char) : Option (JValue × List Char) :=
  let (neg, cs₁) :=
    match cs with
    | '-' :: rest => (true, rest)
    | _ => (false, cs)
  match parseJsonIntPart cs₁ with
  | none => none
  | some (ints, cs₂) =>
    let (fracs, cs₃) :=
      match cs₂ with
      | '.' :: rest =>
          match takeDigits rest with
          | ([], _) => ([], cs₂)
          | (ds, r) => (ds, r)
      | _ => ([], cs₂)
    let (expOk, expVal, cs₄) :=
      match cs₃ with
      | 'e' :: rest => parseJsonExpPart rest cs₃
      | 'E' :: rest => parseJsonExpPart rest cs₃
      | _ => (false, (0 : Int), cs₃)
    let sign : Int := if neg then -1 else 1
    if fracs.isEmpty && !expOk then
      some (.int (sign * digitsToNat ints), cs₂)
    else
      some (.float (sign * digitsToNat (ints ++ fracs))
        (expVal - fracs.length), cs₄)

mutual

/-- Parse one JSON value at the head of the input. -/
def parseJsonValue (fuel : Nat) (cs : List Char) :
    Option (JValue × List Char) :=
  match fuel with
  | 0 => none
  | f + 1 =>
    match cs with
    | 'n' :: 'u' :: 'l' :: 'l' :: rest => some (.null, rest)
    | 't' :: 'r' :: 'u' :: 'e' :: rest => some (.bool true, rest)
    | 'f' :: 'a' :: 'l' :: 's' :: 'e' :: rest =>
        some (.bool false, rest)
    | 'N' :: 'a' :: 'N' :: rest => some (.float 0 0, rest)
    | 'I' :: 'n' :: 'f' :: 'i' :: 'n' :: 'i' :: 't' :: 'y' :: rest =>
        some (.float 1 0, rest)
    | '-' :: 'I' :: 'n' :: 'f' :: 'i' :: 'n' :: 'i' :: 't' :: 'y' ::
        rest => some (.float (-1) 0, rest)
    | '"' :: rest =>
        match parseJsonString f rest [] with
        | some (s, r) => some (.str s, r)
        | none => none
    | '[' :: rest =>
        match skipJsonWs rest with
        | ']' :: r => some (.arr [], r)
        | r => parseJsonArrayElems f r []
    | '{' :: rest =>
        match skipJsonWs rest with
        | '}' :: r => some (.obj [], r)
        | r => parseJsonObjMembers f r []
    | c :: _ =>
        if c = '-' || isDigitAscii c then parseJsonNumber cs else none
    | [] => none

/-- Parse the remainder of a string literal (opening quote already
consumed), strict mode: raw control characters are rejected. -/
def parseJsonString (fuel : Nat) (cs : List Char) (acc : List Char) :
    Option (String × List Char) :=
  match fuel with
  | 0 => none
  | f + 1 =>
    match cs with
    | [] => none
    | '"' :: rest => some (⟨acc.reverse⟩, rest)
    | '\\' :: esc =>
        match esc with
        | '"' :: rest => parseJsonString f rest ('"' :: acc)
        | '\\' :: rest => parseJsonString f rest ('\\' :: acc)
        | '/' :: rest => parseJsonString f rest ('/' :: acc)
        | 'b' :: rest => parseJsonString f rest (Char.ofNat 8 :: acc)
        | 'f' :: rest => parseJsonString f rest (Char.ofNat 12 :: acc)
        | 'n' :: rest => parseJsonString f rest ('\n' :: acc)
        | 'r' :: rest => parseJsonString f rest ('\r' :: acc)
        | 't' :: rest => parseJsonString f rest ('\t' :: acc)
        | 'u' :: h₁ :: h₂ :: h₃ :: h₄ :: rest =>
            match hexDigitVal h₁, hexDigitVal h₂, hexDigitVal h₃,
                hexDigitVal h₄ with
            | some a, some b, some c, some d =>
                parseJsonString f rest
                  (Char.ofNat (((a * 16 + b) * 16 + c) * 16 + d) :: acc)
            | _, _, _, _ => none
        | _ => none
    | c :: rest =>
        if c.toNat < 32 then none
        else parseJsonString f rest (c :: acc)

/-- Parse array elements (at least one) up to the closing bracket. -/
def parseJsonArrayElems (fuel : Nat) (cs : List Char)
    (acc : List JValue) : Option (JValue × List Char) :=
  match fuel with
  | 0 => none
  | f + 1 =>
    match parseJsonValue f (skipJsonWs cs) with
    | none => none
    | some (v, r) =>
        match skipJsonWs r with
        | ',' :: r₂ => parseJsonArrayElems f r₂ (acc ++ [v])
        | ']' :: r₂ => some (.arr (acc ++ [v]), r₂)
        | _ => none

/-- Parse object members (at least one) up to the closing brace;
duplicate keys behave like repeated `dict` insertion (last value
wins, first position kept). -/
def parseJsonObjMembers (fuel : Nat) (cs : List Char)
    (acc : List (String × JValue)) : Option (JValue × List Char) :=
  match fuel with
  | 0 => none
  | f + 1 =>
    match skipJsonWs cs with
    | '"' :: r =>
        match parseJsonString f r [] with
        | none => none
        | some (k, r₁) =>
            match skipJsonWs r₁ with
            | ':' :: r₂ =>
                match parseJsonValue f (skipJsonWs r₂) with
                | none => none
                | some (v, r₃) =>
                    match skipJsonWs r₃ with
                    | ',' :: r₄ =>
                        parseJsonObjMembers f r₄ (dictInsert acc k v)
                    | '}' :: r₄ =>
                        some (.obj (dictInsert acc k v), r₄)
                    | _ => none
            | _ => none
    | _ => none

end

/-- `json.loads`: decode a complete JSON document, rejecting trailing
data. -/
def json_loads (s : String) : Option JValue :=
  match parseJsonValue (4 * (s.data.length + 1)) (skipJsonWs s.data) with
  | some (v, rest) => if (skipJsonWs rest).isEmpty then some v else none
  | none => none

/-! ## Validator (`builder.py`, `_validate_step`)

Python `isinstance` checks against the decoded default value.  Note
that `bool` is a subclass of `int` in Python, so
`isinstance(parsed, (int, float))` is also true of a decoded JSON
boolean. -/

/-- `isinstance(v, str)`. -/
def isPyStr : JValue → Bool
  | .str _ => true
  | _ => false

/-- `isinstance(v, (int, float))`; `True`/`False` are instances of
`int` in Python, so decoded JSON booleans pass this check. -/
def isPyIntOrFloat : JValue → Bool
  | .int _ => true
  | .float _ _ => true
  | .bool _ => true
  | _ => false

/-- `isinstance(v, bool)`. -/
def isPyBool : JValue → Bool
  | .bool _ => true
  | _ => false

/-- `isinstance(v, dict)`. -/
def isPyDict : JValue → Bool
  | .obj _ => true
  | _ => false

/-- `isinstance(v, list)`. -/
def isPyList : JValue → Bool
  | .arr _ => true
  | _ => false

/-- `v is None`. -/
def isPyNone : JValue → Bool
  | .null => true
  | _ => false

/-- The `isinstance` cascade run on a successfully decoded default
(`builder.py` lines 384-417). -/
def checkDefaultType (nm : String) (t : AttributeType) (parsed : JValue) :
    Except String Unit :=
  if t = .string && !isPyStr parsed then
    .error ("Default for " ++ nm ++ " must be JSON string")
  else if t = .number && !isPyIntOrFloat parsed then
    .error ("Default for " ++ nm ++ " must be JSON number")
  else if t = .boolean && !isPyBool parsed then
    .error ("Default for " ++ nm ++ " must be JSON boolean")
  else if t = .object && !isPyDict parsed then
    .error ("Default for " ++ nm ++ " must be JSON object")
  else if t = .array && !isPyList parsed then
    .error ("Default for " ++ nm ++ " must be JSON array")
  else if t = .null && !isPyNone parsed then
    .error ("Default for " ++ nm ++ " must be JSON null")
  else .ok ()

/-- The default-value portion of the per-attribute checks, entered only
when `spec.default` is non-empty.  The source appends the
`JSONDecodeError` text to the parse-failure message; that suffix is
elided here. -/
def checkDefault (nm : String) (spec : AttributeSpec) :
    Except String Unit :=
  match json_loads spec.default with
  | none => .error ("Invalid default JSON for " ++ nm)
  | some parsed => checkDefaultType nm spec.type parsed

/-- The `for_each` portion of the per-attribute checks. -/
def checkForEach (nm : String) (spec : AttributeSpec) :
    Except String Unit :=
  if spec.for_each && spec.role = .output then
    .error ("ForEach not allowed for output attribute " ++ nm)
  else if spec.for_each &&
      !(spec.type = .array || spec.type = .any) then
    .error ("ForEach requires array/any type for " ++ nm)
  else .ok ()

/-- One iteration of the attribute loop in `_validate_step`. -/
def validateAttr (nm : String) (spec : AttributeSpec) :
    Except String Unit :=
  if nm = "" then .error "Attribute name cannot be empty"
  else if spec.role = .const && spec.default = "" then
    .error ("Const attribute " ++ nm ++ " requires default value")
  else if spec.default ≠ "" &&
      !(spec.role = .optional || spec.role = .const) then
    .error ("Default value not allowed for attribute " ++ nm)
  else
    match (if spec.default ≠ "" then checkDefault nm spec
      else .ok ()) with
    | .error e => .error e
    | .ok _ => checkForEach nm spec

/-- The attribute loop of `_validate_step` (fails on the first
offending attribute, like the sequence of `raise`s). -/
def validateAttrs : List (String × AttributeSpec) → Except String Unit
  | [] => .ok ()
  | (nm, spec) :: rest =>
      match validateAttr nm spec with
      | .error e => .error e
      | .ok _ => validateAttrs rest

/-- `not step.http or not step.http.endpoint`. -/
def httpEndpointMissing (s : Step) : Bool :=
  match s.http with
  | none => true
  | some h => h.endpoint = ""

/-- `not step.script or not step.script.script`. -/
def scriptBodyMissing (s : Step) : Bool :=
  match s.script with
  | none => true
  | some sc => sc.script = ""

/-- `not step.flow or not step.flow.goals`. -/
def flowGoalsMissing (s : Step) : Bool :=
  match s.flow with
  | none => true
  | some f => f.goals.isEmpty

/-- `step.type in {SYNC, ASYNC}`. -/
def isHttpType (t : StepType) : Bool :=
  t = .sync || t = .async

/-- `_validate_step` from `builder.py`: the full check cascade, raising
(`.error`) at the first violation.  The membership test against the
four recognized kinds is vacuous over the total `StepType` enum but is
kept for faithfulness. -/
def _validate_step (s : Step) : Except String Unit :=
  if s.id = "" then .error "Step ID cannot be empty"
  else if s.name = "" then .error "Step name cannot be empty"
  else if !(s.type = .sync || s.type = .async || s.type = .script ||
      s.type = .flow) then
    .error ("Invalid step type: " ++ s.type.value)
  else if isHttpType s.type && httpEndpointMissing s then
    .error "HTTP config with endpoint required"
  else if isHttpType s.type && !(s.flow = none) then
    .error "Flow config not allowed for HTTP steps"
  else if isHttpType s.type && !(s.script = none) then
    .error "Script config not allowed for HTTP steps"
  else if s.type = .script && scriptBodyMissing s then
    .error "Script config required for script step"
  else if s.type = .script && !(s.http = none) then
    .error "HTTP config not allowed for script steps"
  else if s.type = .script && !(s.flow = none) then
    .error "Flow config not allowed for script steps"
  else if s.type = .flow && flowGoalsMissing s then
    .error "Flow goals required for flow step"
  else if s.type = .flow && !(s.http = none) then
    .error "HTTP config not allowed for flow steps"
  else if s.type = .flow && !(s.script = none) then
    .error "Script config not allowed for flow steps"
  else validateAttrs s.attributes

/-- `StepBuilder.build`: assemble the `Step` and validate it; a
validation failure surfaces as `.error`, never as a partial step. -/
def sbBuild (o : StepBuilderObj) : Except String Step :=
  let step : Step :=
    { id := o._id
      name := o._name
      type := o._type
      attributes := o._attributes
      labels := o._labels
      http := o._http
      script := o._script
      predicate := o._predicate
      work_config := none
      flow := o._flow
      memoizable := o._memoizable }
  match _validate_step step with
  | .error e => .error e
  | .ok _ => .ok step

/-- Type-match table as the specification words it: string↔JSON
string, number↔JSON int/float, boolean↔JSON bool, object↔JSON object,
array↔JSON array, null↔JSON null (`any` is unconstrained).  This is
the spec-side counterpart of `checkDefaultType`, used to compare the
claimed behavior with the implemented one. -/
def specTypeMatches (t : AttributeType) (v : JValue) : Bool :=
  match t with
  | .string => match v with | .str _ => true | _ => false
  | .number => match v with
    | .int _ => true
    | .float _ _ => true
    | _ => false
  | .boolean => match v with | .bool _ => true | _ => false
  | .object => match v with | .obj _ => true | _ => false
  | .array => match v with | .arr _ => true | _ => false
  | .null => match v with | .null => true | _ => false
  | .any => true

/-! ## Step server request handling (`handlers.py`, `handle_step`) -/

/-- Outcome of calling the user handler: a returned `StepResult`, a
deliberately raised SDK `HTTPError(status, message)`, or any other
exception (carrying its `str(e)` rendering). -/
inductive HandlerOutcome where
  | ok (r : StepResult)
  | httpError (status : Nat) (message : String)
  | failure (message : String)

/-- `StepContext` as built inside `handle_step`: the flow client keeps
the `flow_id` value taken from the metadata (any JSON value), plus the
step id and the raw metadata mapping. -/
structure StepContext where
  flow_id : JValue
  step_id : String
  metadata : JValue

/-- A handler is modelled by the outcome it produces from the context
and the arguments value. -/
def StepHandler : Type := StepContext → JValue → HandlerOutcome

/-- `_execute_with_recovery`: returns the handler result, re-raises
`HTTPError` (modelled as `.error (status, message)`), and converts any
other exception into a failed `StepResult` whose error message is
prefixed with `Step handler panicked: `. -/
def _execute_with_recovery (ctx : StepContext) (handler : StepHandler)
    (args : JValue) : Except (Nat × String) StepResult :=
  match handler ctx args with
  | .ok r => .ok r
  | .httpError status message => .error (status, message)
  | .failure message =>
      .ok { success := false
            outputs := []
            error := "Step handler panicked: " ++ message }

/-- What `request.get_json()` yields: either the decoded value, or a
raised `werkzeug` `BadRequest` for a body that is not valid JSON
(`malformed`). -/
inductive RequestBody where
  | malformed
  | json (v : JValue)

/-- The `str(e)` rendering of the `BadRequest` raised by Flask's
`get_json` on undecodable input; werkzeug appends the decoder detail,
elided here as nothing depends on it. -/
def flaskBadRequestMsg : String :=
  "400 Bad Request: Failed to decode JSON object"

/-- The `str(e)` of the `AttributeError` raised by calling `.get` on a
non-`dict` value. -/
def attrGetErrMsg (v : JValue) : String :=
  "'" ++ pyTypeName v ++ "' object has no attribute 'get'"

/-- The `POST /{step-id}` route (`handle_step` in `handlers.py`),
returning the HTTP status and the JSON body.  A `BadRequest` raised by
`get_json` and the `AttributeError` raised by `.get` on a non-dict are
both caught by the route's generic `except Exception` branch (the
SDK's own `HTTPError` is a different class), producing HTTP 500. -/
def handle_step (step_id : String) (handler : StepHandler)
    (body : RequestBody) : Nat × JValue :=
  match body with
  | .malformed => (500, .obj [("error", .str flaskBadRequestMsg)])
  | .json req =>
    if !pyTruthy req then (400, .obj [("error", .str "Invalid JSON")])
    else
      match req with
      | .obj fields =>
        let arguments := dictGetD fields "arguments" (.obj [])
        let metadata := dictGetD fields "metadata" (.obj [])
        match metadata with
        | .obj mdFields =>
          let flow_id := dictGetD mdFields "flow_id" (.str "")
          let ctx : StepContext :=
            ⟨flow_id, step_id, .obj mdFields⟩
          match _execute_with_recovery ctx handler arguments with
          | .ok r => (200, r.to_dict)
          | .error (status, message) =>
              (status, .obj [("error", .str message)])
        | other => (500, .obj [("error", .str (attrGetErrMsg other))])
      | other => (500, .obj [("error", .str (attrGetErrMsg other))])

/-! ## Registration protocol (`handlers.py`, `create_step_server`) -/

/-- `MAX_REGISTRATION_ATTEMPTS` from `handlers.py`. -/
def MAX_REGISTRATION_ATTEMPTS : Nat := 5

/-- `BACKOFF_MULTIPLIER_SECONDS` from `handlers.py`. -/
def BACKOFF_MULTIPLIER_SECONDS : Nat := 2

/-- Exceptions that can cross the registration loop: `ClientError`
(with its optional HTTP status), the SDK's `StepRegistrationError`,
or any other exception. -/
inductive PyErr where
  | clientError (status_code : Option Nat) (message : String)
  | registrationError (message : String)
  | other (message : String)
  deriving DecidableEq, Repr

/-- Engine behavior presented to the loop: the outcome of the `k`-th
call to `client.register_step` (resp. `client.update_step`). -/
def EngineCalls : Type := Nat → Except PyErr Unit

/-- Body of one loop iteration of `create_step_server`: update directly
when the builder is dirty; otherwise register, falling back to update
when the registration failed with a `ClientError` carrying status 409
(any other exception propagates).  Returns the iteration outcome and
the updated register/update call counters. -/
def attemptRegistration (dirty : Bool) (reg upd : EngineCalls)
    (r u : Nat) : Except PyErr Unit × Nat × Nat :=
  if dirty then
    match upd u with
    | .ok _ => (.ok (), r, u + 1)
    | .error e => (.error e, r, u + 1)
  else
    match reg r with
    | .ok _ => (.ok (), r + 1, u)
    | .error e =>
      match e with
      | .clientError st _ =>
          if st ≠ some 409 then (.error e, r + 1, u)
          else
            match upd u with
            | .ok _ => (.ok (), r + 1, u + 1)
            | .error e' => (.error e', r + 1, u + 1)
      | _ => (.error e, r + 1, u)

/-- Observable outcome of the registration phase: what escapes it
(`.ok` when registration succeeded), how many loop iterations ran, the
`time.sleep` durations in order, how many register/update calls were
issued, and whether `app.run` is reached. -/
structure RegOutcome where
  result : Except PyErr Unit
  attempts : Nat
  sleeps : List Nat
  regCalls : Nat
  updCalls : Nat
  serverStarted : Bool

/-- The retry loop of `create_step_server`.  `remaining` counts the
iterations the `for` statement has left; when it reaches zero without
a break, control falls through to the (dead) post-loop
`raise StepRegistrationError`.  Inside the loop, a failing attempt
re-raises its exception once `attempt >= MAX_REGISTRATION_ATTEMPTS`,
else sleeps `attempt * BACKOFF_MULTIPLIER_SECONDS` and retries. -/
def regLoop (dirty : Bool) (reg upd : EngineCalls) :
    Nat → Nat → Nat → Nat → List Nat → RegOutcome
  | 0, attempt, r, u, sleeps =>
      { result := .error
          (.registrationError "Failed to register step after retries")
        attempts := attempt - 1
        sleeps := sleeps
        regCalls := r
        updCalls := u
        serverStarted := false }
  | rem + 1, attempt, r, u, sleeps =>
      match attemptRegistration dirty reg upd r u with
      | (.ok _, r', u') =>
          { result := .ok ()
            attempts := attempt
            sleeps := sleeps
            regCalls := r'
            updCalls := u'
            serverStarted := true }
      | (.error e, r', u') =>
          if MAX_REGISTRATION_ATTEMPTS ≤ attempt then
            { result := .error e
              attempts := attempt
              sleeps := sleeps
              regCalls := r'
              updCalls := u'
              serverStarted := false }
          else
            regLoop dirty reg upd rem (attempt + 1) r' u'
              (sleeps ++ [attempt * BACKOFF_MULTIPLIER_SECONDS])

/-- The registration phase of `create_step_server` (the part between
`step = builder.build()` and `app = Flask(__name__)`), for a builder
whose dirty flag is `dirty` and an engine behaving as `reg`/`upd`. -/
def create_step_server_registration (dirty : Bool)
    (reg upd : EngineCalls) : RegOutcome :=
  regLoop dirty reg upd MAX_REGISTRATION_ATTEMPTS 1 0 0 []

/-! ## Async completion contract (`handlers.py`, `AsyncContext`) -/

/-- Outcome of the webhook `requests.post`: a response with its final
status code, or a transport-level failure (a `RequestException` with
no response). -/
inductive PostOutcome where
  | response (status : Nat)
  | transportFailure (message : String)

/-- `requests.Response.raise_for_status` raises `HTTPError` exactly
for client-error (4xx) and server-error (5xx) status codes. -/
def raiseForStatusFails (status : Nat) : Bool :=
  (400 ≤ status && status < 500) || (500 ≤ status && status < 600)

/-- What a completion call produces: the list of webhook POST bodies
issued (always exactly one, in wire form; there is no retry), and
whether a `WebhookError` was raised to the caller. -/
structure WebhookSend where
  posted : List JValue
  result : Except Unit Unit

/-- `AsyncContext._send_webhook`: POST the wire form once; any
`RequestException` (transport failure, or the `HTTPError` raised by
`raise_for_status`) becomes a `WebhookError`. -/
def _send_webhook (net : PostOutcome) (r : StepResult) : WebhookSend :=
  { posted := [r.to_dict]
    result :=
      match net with
      | .transportFailure _ => .error ()
      | .response st =>
          if raiseForStatusFails st then .error () else .ok () }

/-- `AsyncContext.success`. -/
def asyncSuccess (net : PostOutcome)
    (outputs : List (String × JValue)) : WebhookSend :=
  _send_webhook net { success := true, outputs := outputs, error := "" }

/-- `AsyncContext.fail`. -/
def asyncFail (net : PostOutcome) (error : String) : WebhookSend :=
  _send_webhook net { success := false, outputs := [], error := error }

/-- `AsyncContext.complete`. -/
def asyncComplete (net : PostOutcome) (r : StepResult) : WebhookSend :=
  _send_webhook net r

/-- Status codes the specification calls success (`2xx`). -/
def is2xx (status : Nat) : Bool :=
  200 ≤ status && status < 300

/-! ## Specification-side helper predicates -/

/-- A step-builder mutator behaved as the builder contract demands:
the call allocated the expected new object at a fresh address, left
the receiver's slot (hence every observable field of the receiver)
untouched, and returned an address distinct from the receiver's. -/
def sbMutatorOK (st : SBStore) (a : Nat) (result : SBStore × Nat)
    (expected : StepBuilderObj) : Prop :=
  result = (List.append st [expected], st.length) ∧
  result.1.getD a defaultSB = st.getD a defaultSB ∧
  result.2 ≠ a

/-- Same contract for flow-builder mutators. -/
def fbMutatorOK (st : FBStore) (a : Nat) (result : FBStore × Nat)
    (expected : FlowBuilderObj) : Prop :=
  result = (List.append st [expected], st.length) ∧
  result.1.getD a defaultFB = st.getD a defaultFB ∧
  result.2 ≠ a

/-- A step that passes every validation check except possibly the
default-value check of its single attribute `value`: a sync step with
an endpoint and one attribute of the given role, type and default. -/
def defaultProbeStep (role : AttributeRole) (t : AttributeType)
    (d : String) : Step :=
  { id := "probe"
    name := "Probe"
    type := .sync
    attributes := [("value", ⟨role, t, d, false⟩)]
    labels := []
    http := some ⟨"http://localhost:8081/probe", "", 0⟩
    script := none
    predicate := none
    work_config := none
    flow := none
    memoizable := false }

end Argyll

namespace Argyll

/-! # Theorems -/

/-! ## Shared lemmas -/

/-- Any `_copy`-based mutator satisfies the builder contract when the
receiver address is in range. -/
theorem sbCopy_mutatorOK (st : SBStore) (a : Nat)
    (f : StepBuilderObj → StepBuilderObj) (h : a < st.length) :
    sbMutatorOK st a (sbCopy st a f) (f (st.getD a defaultSB)) := by
  refine ⟨rfl, ?_, ?_⟩
  · show (List.append st [f (st.getD a defaultSB)]).getD a defaultSB =
      st.getD a defaultSB
    rw [List.append_eq]
    unfold List.getD
    rw [List.get?_append h]
  · exact fun hc => absurd hc.symm (Nat.ne_of_lt h)

/-- Flow-builder version of the `_copy` contract. -/
theorem fbCopy_mutatorOK (st : FBStore) (a : Nat)
    (f : FlowBuilderObj → FlowBuilderObj) (h : a < st.length) :
    fbMutatorOK st a (fbCopy st a f) (f (st.getD a defaultFB)) := by
  refine ⟨rfl, ?_, ?_⟩
  · show (List.append st [f (st.getD a defaultFB)]).getD a defaultFB =
      st.getD a defaultFB
    rw [List.append_eq]
    unfold List.getD
    rw [List.get?_append h]
  · exact fun hc => absurd hc.symm (Nat.ne_of_lt h)

/-- The status codes on which `raise_for_status` raises are exactly
the 4xx/5xx range. -/
theorem raiseForStatusFails_iff (st : Nat) :
    raiseForStatusFails st = true ↔ 400 ≤ st ∧ st < 600 := by
  simp only [raiseForStatusFails, Bool.or_eq_true, Bool.and_eq_true,
    decide_eq_true_eq]
  omega

/-! ## C9: default kebab-case id -/

/-- C9: a `StepBuilder` constructed without an explicit id (or with an
empty one) defaults its id to the kebab-case transform of the name;
`"MyAwesomeStep"`, `"test_step"`, `"test step"` and `"testStep"` all
map to the expected kebab forms. -/
theorem C9_default_id_is_kebab_name :
    (∀ name : String,
      (stepBuilderNew name none)._id = _to_kebab_case name) ∧
    _to_kebab_case "MyAwesomeStep" = "my-awesome-step" ∧
    _to_kebab_case "test_step" = "test-step" ∧
    _to_kebab_case "test step" = "test-step" ∧
    _to_kebab_case "testStep" = "test-step" :=
  ⟨fun _ => rfl, rfl, rfl, rfl, rfl⟩

/-! ## C10: mode-selecting mutators override the step type -/

/-- C10: `with_script`/`with_script_language` always force the builder
type to `script`, and the three flow-config mutators always force it
to `flow`, silently overriding any previously chosen execution type;
in particular `with_async_execution` followed by `with_script` yields
a script-typed builder, and its `build()` then validates (successfully
here) under the script rules. -/
theorem C10_mode_mutators_override_type :
    (∀ (o : StepBuilderObj) (s : String),
      (sbWithScriptObj s o)._type = .script) ∧
    (∀ (o : StepBuilderObj) (lang : ScriptLanguage) (s : String),
      (sbWithScriptLanguageObj lang s o)._type = .script) ∧
    (∀ (o : StepBuilderObj) (gs : List String),
      (sbWithFlowGoalsObj gs o)._type = .flow) ∧
    (∀ (o : StepBuilderObj) (m : List (String × String)),
      (sbWithFlowInputMapObj m o)._type = .flow) ∧
    (∀ (o : StepBuilderObj) (m : List (String × String)),
      (sbWithFlowOutputMapObj m o)._type = .flow) ∧
    (sbWithScriptObj "(+ 1 2)"
      (sbWithAsyncExecutionObj (stepBuilderNew "Test" none)))._type =
      .script ∧
    sbBuild (sbWithScriptObj "(+ 1 2)"
      (sbWithAsyncExecutionObj (stepBuilderNew "Test" none))) =
      .ok { id := "test"
            name := "Test"
            type := .script
            attributes := []
            labels := []
            http := none
            script := some ⟨.ale, "(+ 1 2)"⟩
            predicate := none
            work_config := none
            flow := none
            memoizable := false } :=
  ⟨fun _ _ => rfl, fun _ _ _ => rfl, fun _ _ => rfl, fun _ _ => rfl,
    fun _ _ => rfl, rfl, rfl⟩

/-! ## C8: WorkConfig wire form -/

/-- C8 counterexample: the all-default (all zero-valued) `WorkConfig`
does not serialize to the empty object; `backoff_type` is emitted even
at its default value, because the truthiness guard on a non-empty
str-enum member is always true. -/
theorem C8_counterexample_default_not_empty :
    WorkConfig.to_dict {} =
      .obj [("backoff_type", .str "fixed")] ∧
    JValue.obj [("backoff_type", JValue.str "fixed")] ≠ .obj [] := by
  refine ⟨rfl, fun h => ?_⟩
  simp at h

/-- C8 (amended): every zero-valued numeric field of a work
configuration is omitted from the wire form and every positive one is
present, but `backoff_type` is always present (its enum value is a
non-empty string, hence truthy, even at the default `fixed`); the
all-default configuration therefore serializes to
`{backoff_type: "fixed"}`. -/
theorem C8_amended_zero_numeric_fields_omitted (w : WorkConfig) :
    alistLookup w.to_dict_fields "max_retries" =
      (if w.max_retries > 0 then some (.int w.max_retries) else none) ∧
    alistLookup w.to_dict_fields "backoff_type" =
      some (.str w.backoff_type.value) ∧
    alistLookup w.to_dict_fields "backoff" =
      (if w.backoff > 0 then some (.int w.backoff) else none) ∧
    alistLookup w.to_dict_fields "max_backoff" =
      (if w.max_backoff > 0 then some (.int w.max_backoff) else none) ∧
    alistLookup w.to_dict_fields "parallelism" =
      (if w.parallelism > 0 then some (.int w.parallelism) else none) ∧
    WorkConfig.to_dict {} = .obj [("backoff_type", .str "fixed")] := by
  obtain ⟨mr, bt, bo, mb, par⟩ := w
  cases bt <;>
    by_cases h1 : mr > 0 <;> by_cases h2 : bo > 0 <;>
    by_cases h3 : mb > 0 <;> by_cases h4 : par > 0 <;>
    simp [WorkConfig.to_dict_fields, WorkConfig.to_dict, alistLookup,
      BackoffType.value, h1, h2, h3, h4]

/-! ## C7: async completion webhook -/

/-- C7 counterexample: a non-2xx webhook response need not raise
`WebhookError` — a 304 response passes `raise_for_status` silently,
so `success` completes without error although 304 is not 2xx. -/
theorem C7_counterexample_304_no_error :
    (asyncSuccess (.response 304) [("result", .str "done")]).result =
      .ok () ∧
    is2xx 304 = false :=
  ⟨rfl, rfl⟩

/-- C7 (amended): each completion primitive issues exactly one webhook
POST carrying the `StepResult` wire form (`success` posts
`{success:true, outputs:…}` with `outputs` omitted when empty, `fail`
posts the wire form of a failed result carrying the message,
`complete` posts the given result's wire form), the delivery is never
retried, and `WebhookError` is raised exactly on a transport failure
or a 4xx/5xx response (not on other non-2xx statuses). -/
theorem C7_amended_webhook_contract (net : PostOutcome)
    (outputs : List (String × JValue)) (msg : String) (r : StepResult) :
    (asyncSuccess net outputs).posted =
      [StepResult.to_dict ⟨true, outputs, ""⟩] ∧
    (outputs ≠ [] → (asyncSuccess net outputs).posted =
      [.obj [("success", .bool true), ("outputs", .obj outputs)]]) ∧
    (outputs = [] → (asyncSuccess net outputs).posted =
      [.obj [("success", .bool true)]]) ∧
    (asyncFail net msg).posted =
      [StepResult.to_dict ⟨false, [], msg⟩] ∧
    (msg ≠ "" → (asyncFail net msg).posted =
      [.obj [("success", .bool false), ("error", .str msg)]]) ∧
    (asyncComplete net r).posted = [r.to_dict] ∧
    ((asyncComplete net r).result = .error () ↔
      (∃ m, net = .transportFailure m) ∨
      (∃ st, net = .response st ∧ 400 ≤ st ∧ st < 600)) ∧
    (asyncSuccess net outputs).result = (asyncComplete net r).result ∧
    (asyncFail net msg).result = (asyncComplete net r).result := by
  refine ⟨rfl, ?_, ?_, rfl, ?_, rfl, ?_, rfl, rfl⟩
  · intro h
    cases outputs with
    | nil => exact absurd rfl h
    | cons x xs => rfl
  · intro h
    subst h
    rfl
  · intro h
    simp [asyncFail, _send_webhook, StepResult.to_dict, h]
  · cases net with
    | transportFailure m =>
        constructor
        · intro _
          exact Or.inl ⟨m, rfl⟩
        · intro _
          rfl
    | response st =>
        simp only [asyncComplete, _send_webhook]
        by_cases h : raiseForStatusFails st = true
        · rw [if_pos h]
          constructor
          · intro _
            exact Or.inr ⟨st, rfl, (raiseForStatusFails_iff st).1 h⟩
          · intro _
            rfl
        · rw [if_neg h]
          constructor
          · intro hco
            exact absurd hco (by simp)
          · rintro (⟨m, hm⟩ | ⟨st', hst', hb⟩)
            · exact PostOutcome.noConfusion hm
            · injection hst' with h'
              subst h'
              exact absurd ((raiseForStatusFails_iff st).2 hb) h

/-- C7 witness: the amended contract applied at a 200 response with
the outputs of the repository's round-trip test, and at a 500 response
for a failed completion. -/
theorem C7_amended_webhook_contract_witness :
    (asyncSuccess (.response 200) [("result", .str "done")]).posted =
      [.obj [("success", .bool true),
        ("outputs", .obj [("result", .str "done")])]] ∧
    (asyncFail (.response 500) "x").result = .error () := by
  have h := C7_amended_webhook_contract (.response 200)
    [("result", .str "done")] "x" ⟨true, [], ""⟩
  have h₂ := C7_amended_webhook_contract (.response 500)
    [("result", .str "done")] "x" ⟨false, [], "x"⟩
  refine ⟨h.2.1 (by simp), ?_⟩
  rw [h₂.2.2.2.2.2.2.2.2]
  exact (h₂.2.2.2.2.2.2.1).2 (Or.inr ⟨500, rfl, by omega⟩)

/-! ## C4: 409 conflict falls back to a single update -/

/-- C4: with a non-dirty builder, when the first registration attempt
fails with a `ClientError` carrying HTTP 409 and the following update
call succeeds, the startup issues exactly one register call and one
update call, raises nothing, performs no further attempts and reaches
`app.run`. -/
theorem C4_conflict_single_update (reg upd : EngineCalls) (m : String)
    (hreg : reg 0 = .error (.clientError (some 409) m))
    (hupd : upd 0 = .ok ()) :
    create_step_server_registration false reg upd =
      { result := .ok ()
        attempts := 1
        sleeps := []
        regCalls := 1
        updCalls := 1
        serverStarted := true } := by
  simp [create_step_server_registration, MAX_REGISTRATION_ATTEMPTS,
    regLoop, attemptRegistration, hreg, hupd]

/-- C4 witness at a concrete engine behavior. -/
theorem C4_conflict_single_update_witness :
    create_step_server_registration false
      (fun _ => .error (.clientError (some 409) "conflict"))
      (fun _ => .ok ()) =
      { result := .ok ()
        attempts := 1
        sleeps := []
        regCalls := 1
        updCalls := 1
        serverStarted := true } :=
  C4_conflict_single_update _ _ "conflict" rfl rfl

/-! ## C2: retry exhaustion -/

/-- C2 (code bug evidence): when every attempt fails with a non-409
`ClientError`, the loop runs exactly 5 attempts and sleeps 2, 4, 6 and
8 seconds between consecutive attempts, the server never starts — but
what escapes to the caller is the final underlying `ClientError`, not
the `StepRegistrationError` that the (unreachable) post-loop raise at
`handlers.py:127-128` was meant to produce. -/
theorem C2_exhaustion_raises_underlying_error :
    create_step_server_registration false
      (fun _ => .error (.clientError (some 500) "register failed"))
      (fun _ => .error (.clientError (some 500) "update failed")) =
      { result := .error (.clientError (some 500) "register failed")
        attempts := 5
        sleeps := [2, 4, 6, 8]
        regCalls := 5
        updCalls := 0
        serverStarted := false } :=
  rfl

/-! ## C3: missing/invalid request body -/

/-- C3 counterexample: a request body that is not decodable JSON does
not produce HTTP 400 `{error: "Invalid JSON"}` — the `BadRequest`
raised inside `get_json` is caught by the route's generic exception
branch and turned into HTTP 500. -/
theorem C3_counterexample_malformed_body_500 :
    handle_step "test-step" (fun _ _ => .ok ⟨true, [], ""⟩)
        .malformed =
      (500, .obj [("error", .str flaskBadRequestMsg)]) ∧
    (500 : Nat) ≠ 400 :=
  ⟨rfl, by decide⟩

/-- C3 (amended): a request body decoding to a falsy JSON value (such
as `null` or `{}`) yields HTTP 400 `{error: "Invalid JSON"}` without
invoking the handler; a body that fails to decode at all raises
Flask's `BadRequest` inside the route, which the generic exception
branch converts to HTTP 500, also without invoking the handler. -/
theorem C3_amended_invalid_body (sid : String)
    (h₁ h₂ : StepHandler) (v : JValue)
    (hv : pyTruthy v = false) :
    handle_step sid h₁ (.json v) =
      (400, .obj [("error", .str "Invalid JSON")]) ∧
    handle_step sid h₁ (.json v) = handle_step sid h₂ (.json v) ∧
    handle_step sid h₁ .malformed =
      (500, .obj [("error", .str flaskBadRequestMsg)]) ∧
    handle_step sid h₁ .malformed = handle_step sid h₂ .malformed := by
  refine ⟨?_, ?_, rfl, rfl⟩ <;> simp [handle_step, hv]

/-- C3 witness: the amended statement at the body `null` (the case the
repository's own test exercises) and two concrete handlers. -/
theorem C3_amended_invalid_body_witness :
    handle_step "test-step" (fun _ _ => .ok ⟨true, [], ""⟩)
        (.json .null) =
      (400, .obj [("error", .str "Invalid JSON")]) :=
  (C3_amended_invalid_body "test-step" (fun _ _ => .ok ⟨true, [], ""⟩)
    (fun _ _ => .failure "boom") .null rfl).1

/-! ## C5: default-value validation -/

/-- The `isinstance` cascade accepts a decoded default exactly when it
matches the spec table, or when the declared type is `number` and the
value is a JSON boolean (Python's `bool` being a subclass of `int`). -/
theorem checkDefaultType_ok_iff (nm : String) (t : AttributeType)
    (v : JValue) :
    checkDefaultType nm t v = .ok () ↔
      (specTypeMatches t v || (t = .number && isPyBool v)) = true := by
  cases t <;> cases v <;>
    simp [checkDefaultType, specTypeMatches, isPyStr, isPyIntOrFloat,
      isPyBool, isPyDict, isPyList, isPyNone]

/-- C5 counterexample: the default `"true"` decodes to a JSON boolean,
which per the claim's table does not match declared type `number`, yet
validation succeeds — `isinstance(parsed, (int, float))` is true of
Python booleans. -/
theorem C5_counterexample_bool_passes_number :
    json_loads "true" = some (.bool true) ∧
    specTypeMatches .number (.bool true) = false ∧
    _validate_step (defaultProbeStep .optional .number "true") =
      .ok () :=
  ⟨rfl, rfl, rfl⟩

/-- C5 (amended): for a step that passes every other check, with an
attribute of role `optional`/`const` and a non-empty default,
validation succeeds iff the default decodes as JSON and the decoded
value matches the declared type, where `number` accepts JSON int/float
and also JSON booleans (via Python's `bool <: int`); in particular
default `"1"` with declared type `string` fails and default `"1"` with
declared type `number` succeeds. -/
theorem C5_amended_default_validation (role : AttributeRole)
    (t : AttributeType) (d : String)
    (hrole : role = .optional ∨ role = .const) (hd : d ≠ "") :
    (_validate_step (defaultProbeStep role t d) = .ok () ↔
      ∃ v, json_loads d = some v ∧
        (specTypeMatches t v || (t = .number && isPyBool v)) = true) ∧
    _validate_step (defaultProbeStep .optional .string "1") ≠ .ok () ∧
    _validate_step (defaultProbeStep .optional .number "1") = .ok () := by
  refine ⟨?_, ?_, rfl⟩
  · have hstep : _validate_step (defaultProbeStep role t d) =
        (match checkDefault "value" ⟨role, t, d, false⟩ with
          | .error e => Except.error e
          | .ok _ => Except.ok ()) := by
      rcases hrole with rfl | rfl
      · simp [_validate_step, defaultProbeStep, validateAttrs,
          validateAttr, hd, isHttpType, httpEndpointMissing,
          checkForEach]
        cases checkDefault "value" ⟨.optional, t, d, false⟩ <;> rfl
      · simp [_validate_step, defaultProbeStep, validateAttrs,
          validateAttr, hd, isHttpType, httpEndpointMissing,
          checkForEach]
        cases checkDefault "value" ⟨.const, t, d, false⟩ <;> rfl
    rw [hstep]
    unfold checkDefault
    cases hjl : json_loads d with
    | none =>
        simp [hjl]
    | some v =>
        simp only [hjl]
        cases hct : checkDefaultType "value" t v with
        | error e =>
            simp only [hct]
            constructor
            · intro h
              exact Except.noConfusion h
            · rintro ⟨v', hv', hm⟩
              injection hv' with h'
              subst h'
              rw [(checkDefaultType_ok_iff "value" t v).2 hm] at hct
              exact Except.noConfusion hct
        | ok u =>
            cases u
            simp only [hct]
            constructor
            · intro _
              exact ⟨v, rfl,
                (checkDefaultType_ok_iff "value" t v).1 hct⟩
            · intro _
              trivial
  · intro h
    rw [show _validate_step (defaultProbeStep .optional .string "1") =
      .error "Default for value must be JSON string" from rfl] at h
    exact Except.noConfusion h

/-- C5 witness: the amended statement applied at role `optional`,
declared type `number` and default `"1"`, which validates. -/
theorem C5_amended_default_validation_witness :
    _validate_step (defaultProbeStep .optional .number "1") = .ok () :=
  (C5_amended_default_validation .optional .number "1" (Or.inl rfl)
    (by decide)).2.2

/-! ## C1: response determined by handler outcome -/

/-- C1 counterexample: a valid non-empty JSON object whose `metadata`
member is not itself an object makes `metadata.get` raise an
`AttributeError` before the handler runs, so the response is HTTP 500
rather than the HTTP 200 wire form of the handler's returned result. -/
theorem C1_counterexample_nonobject_metadata :
    handle_step "test-step" (fun _ _ => .ok ⟨true, [], ""⟩)
        (.json (.obj [("metadata", .int 7)])) =
      (500, .obj
        [("error", .str "'int' object has no attribute 'get'")]) ∧
    pyTruthy (.obj [("metadata", .int 7)]) = true ∧
    ((500 : Nat), JValue.obj
        [("error", .str "'int' object has no attribute 'get'")]) ≠
      ((200 : Nat), (StepResult.mk true [] "").to_dict) := by
  refine ⟨rfl, rfl, fun h => ?_⟩
  simp at h

/-- C1 (amended): for every POST whose body is a valid non-empty JSON
object whose `metadata` member (defaulting to `{}`) is an object, the
response is determined by the handler's outcome exactly as claimed: a
returned `StepResult` is serialized at HTTP 200 regardless of its
success flag, a raised SDK `HTTPError(status, message)` becomes
`{error: message}` at that status, and any other exception is
recovered into HTTP 200 with a failed result whose error is prefixed
by `Step handler panicked: ` — no exception escapes. -/
theorem C1_amended_response_by_outcome (sid : String)
    (handler : StepHandler) (fields mdf : List (String × JValue))
    (hne : fields ≠ [])
    (hmd : dictGetD fields "metadata" (.obj []) = .obj mdf) :
    handle_step sid handler (.json (.obj fields)) =
      match handler ⟨dictGetD mdf "flow_id" (.str ""), sid, .obj mdf⟩
          (dictGetD fields "arguments" (.obj [])) with
      | .ok r => (200, r.to_dict)
      | .httpError status message =>
          (status, .obj [("error", .str message)])
      | .failure message =>
          (200, (StepResult.mk false []
            ("Step handler panicked: " ++ message)).to_dict) := by
  have htruthy : pyTruthy (.obj fields) = true := by
    simp [pyTruthy, List.isEmpty_iff, hne]
  simp only [handle_step, htruthy, Bool.not_true, Bool.false_eq_true,
    if_false, hmd]
  cases hout : handler ⟨dictGetD mdf "flow_id" (.str ""), sid,
      .obj mdf⟩ (dictGetD fields "arguments" (.obj [])) with
  | ok r => simp [_execute_with_recovery, hout]
  | httpError status message => simp [_execute_with_recovery, hout]
  | failure message => simp [_execute_with_recovery, hout]

/-- C1 witness: the amended statement at the request body the
repository's tests use, with a handler returning an echo result. -/
theorem C1_amended_response_by_outcome_witness :
    handle_step "test-step"
        (fun _ _ => .ok ⟨true, [("value", .int 3)], ""⟩)
        (.json (.obj
          [("arguments", .obj [("value", .int 3)]),
            ("metadata", .obj [("flow_id", .str "flow-1")])])) =
      (200, .obj [("success", .bool true),
        ("outputs", .obj [("value", .int 3)])]) := by
  have h := C1_amended_response_by_outcome "test-step"
    (fun _ _ => .ok ⟨true, [("value", .int 3)], ""⟩)
    [("arguments", .obj [("value", .int 3)]),
      ("metadata", .obj [("flow_id", .str "flow-1")])]
    [("flow_id", .str "flow-1")] (by simp) rfl
  simpa using h

/-! ## C6: builder immutability -/

/-- C6: every `StepBuilder`/`FlowBuilder` mutator returns a distinct
builder (allocated at a fresh address) carrying exactly the mutation
applied to a copy of the receiver, and leaves the receiver's slot —
hence every observable field of the receiver — unchanged.
`with_for_each` does so whenever the named attribute exists. -/
theorem C6_builder_mutators_immutable (st : SBStore) (a : Nat)
    (h : a < st.length) (i nm k v url s : String) (t : AttributeType)
    (d : String) (lang : ScriptLanguage)
    (ls mapping : List (String × String)) (ms : Int)
    (gs : List String) (fst : FBStore) (fa : Nat)
    (hf : fa < fst.length) (sid : String) (sids : List String)
    (initState : List (String × JValue)) :
    sbMutatorOK st a (sb_with_id st a i)
      (sbWithIdObj i (st.getD a defaultSB)) ∧
    sbMutatorOK st a (sb_required st a nm t)
      (sbRequiredObj nm t (st.getD a defaultSB)) ∧
    sbMutatorOK st a (sb_optional st a nm t d)
      (sbOptionalObj nm t d (st.getD a defaultSB)) ∧
    sbMutatorOK st a (sb_const st a nm t d)
      (sbConstObj nm t d (st.getD a defaultSB)) ∧
    sbMutatorOK st a (sb_output st a nm t)
      (sbOutputObj nm t (st.getD a defaultSB)) ∧
    (∀ sp, lookupAttrSpec (st.getD a defaultSB)._attributes nm =
        some sp →
      sb_with_for_each st a nm =
        some (sbCopy st a (sbForEachObj nm sp)) ∧
      sbMutatorOK st a (sbCopy st a (sbForEachObj nm sp))
        (sbForEachObj nm sp (st.getD a defaultSB))) ∧
    sbMutatorOK st a (sb_with_label st a k v)
      (sbWithLabelObj k v (st.getD a defaultSB)) ∧
    sbMutatorOK st a (sb_with_labels st a ls)
      (sbWithLabelsObj ls (st.getD a defaultSB)) ∧
    sbMutatorOK st a (sb_with_endpoint st a url)
      (sbWithEndpointObj url (st.getD a defaultSB)) ∧
    sbMutatorOK st a (sb_with_health_check st a url)
      (sbWithHealthCheckObj url (st.getD a defaultSB)) ∧
    sbMutatorOK st a (sb_with_timeout st a ms)
      (sbWithTimeoutObj ms (st.getD a defaultSB)) ∧
    sbMutatorOK st a (sb_with_script st a s)
      (sbWithScriptObj s (st.getD a defaultSB)) ∧
    sbMutatorOK st a (sb_with_script_language st a lang s)
      (sbWithScriptLanguageObj lang s (st.getD a defaultSB)) ∧
    sbMutatorOK st a (sb_with_predicate st a lang s)
      (sbWithPredicateObj lang s (st.getD a defaultSB)) ∧
    sbMutatorOK st a (sb_with_flow_goals st a gs)
      (sbWithFlowGoalsObj gs (st.getD a defaultSB)) ∧
    sbMutatorOK st a (sb_with_flow_input_map st a mapping)
      (sbWithFlowInputMapObj mapping (st.getD a defaultSB)) ∧
    sbMutatorOK st a (sb_with_flow_output_map st a mapping)
      (sbWithFlowOutputMapObj mapping (st.getD a defaultSB)) ∧
    sbMutatorOK st a (sb_with_async_execution st a)
      (sbWithAsyncExecutionObj (st.getD a defaultSB)) ∧
    sbMutatorOK st a (sb_with_sync_execution st a)
      (sbWithSyncExecutionObj (st.getD a defaultSB)) ∧
    sbMutatorOK st a (sb_with_memoizable st a)
      (sbWithMemoizableObj (st.getD a defaultSB)) ∧
    sbMutatorOK st a (sb_update st a)
      (sbUpdateObj (st.getD a defaultSB)) ∧
    fbMutatorOK fst fa (fb_with_goal fst fa sid)
      (fbWithGoalObj sid (fst.getD fa defaultFB)) ∧
    fbMutatorOK fst fa (fb_with_goals fst fa sids)
      (fbWithGoalsObj sids (fst.getD fa defaultFB)) ∧
    fbMutatorOK fst fa (fb_with_initial_state fst fa initState)
      (fbWithInitialStateObj initState (fst.getD fa defaultFB)) := by
  refine ⟨sbCopy_mutatorOK st a _ h, sbCopy_mutatorOK st a _ h,
    sbCopy_mutatorOK st a _ h, sbCopy_mutatorOK st a _ h,
    sbCopy_mutatorOK st a _ h, ?_,
    sbCopy_mutatorOK st a _ h, sbCopy_mutatorOK st a _ h,
    sbCopy_mutatorOK st a _ h, sbCopy_mutatorOK st a _ h,
    sbCopy_mutatorOK st a _ h, sbCopy_mutatorOK st a _ h,
    sbCopy_mutatorOK st a _ h, sbCopy_mutatorOK st a _ h,
    sbCopy_mutatorOK st a _ h, sbCopy_mutatorOK st a _ h,
    sbCopy_mutatorOK st a _ h, sbCopy_mutatorOK st a _ h,
    sbCopy_mutatorOK st a _ h, sbCopy_mutatorOK st a _ h,
    sbCopy_mutatorOK st a _ h,
    fbCopy_mutatorOK fst fa _ hf, fbCopy_mutatorOK fst fa _ hf,
    fbCopy_mutatorOK fst fa _ hf⟩
  intro sp hsp
  unfold sb_with_for_each
  rw [hsp]
  exact ⟨rfl, sbCopy_mutatorOK st a _ h⟩

/-- C6 witness: the contract instantiated on a singleton heap holding
a freshly constructed builder that declares an `items` attribute. -/
theorem C6_builder_mutators_immutable_witness :
    sbMutatorOK
      [sbRequiredObj "items" .array (stepBuilderNew "Test" none)] 0
      (sb_with_id
        [sbRequiredObj "items" .array (stepBuilderNew "Test" none)] 0
        "custom")
      (sbWithIdObj "custom"
        ([sbRequiredObj "items" .array
          (stepBuilderNew "Test" none)].getD 0 defaultSB)) ∧
    sb_with_for_each
      [sbRequiredObj "items" .array (stepBuilderNew "Test" none)] 0
      "items" =
      some (sbCopy
        [sbRequiredObj "items" .array (stepBuilderNew "Test" none)] 0
        (sbForEachObj "items" ⟨.required, .array, "", false⟩)) := by
  have h := C6_builder_mutators_immutable
    [sbRequiredObj "items" .array (stepBuilderNew "Test" none)] 0
    (by decide) "custom" "items" "env" "prod"
    "http://localhost:8081/test" "(+ 1 2)" .array "1" .ale []
    [] 5000 ["g1"] [⟨"flow-1", [], []⟩] 0 (by decide) "s1" ["s1"] []
  exact ⟨h.1, (h.2.2.2.2.2.1 ⟨.required, .array, "", false⟩ rfl).1⟩

end Argyll
